import Mathlib

/-!
Verification development for the ISEKDAPP task/session orchestration core.

The definitions below are a shallow embedding of the Python sources:
  - `src/agent_server/utils/task.py` (`EnhancedTaskStore`),
  - `src/agent_server/utils/session.py` (`SessionStore` conversation history),
  - `src/agent_server/adapter/isek_adapter.py` (`UnifiedIsekAdapter`).

Python dicts are modelled as insertion-ordered association lists
(assignment to an existing key updates in place, a new key is appended),
`datetime.now()` values as abstract `Nat` ticks, and the asynchronous
event generators as pure functions producing lists of events.
-/

/-- Lookup in an insertion-ordered association list (Python `d.get(k)` / `d[k]`). -/
def alookup {α : Type} : List (String × α) → String → Option α
  | [], _ => none
  | (k, v) :: rest, key => if k = key then some v else alookup rest key

/-- Assignment `d[k] = v` on an insertion-ordered association list: an existing
key is updated in place, a fresh key is appended at the end. -/
def aset {α : Type} : List (String × α) → String → α → List (String × α)
  | [], key, v => [(key, v)]
  | (k, w) :: rest, key, v =>
      if k = key then (key, v) :: rest else (k, w) :: aset rest key v

/-- Python `old.update(new)`: assign every pair of `new` into `old`, in order. -/
def dictUpdate (old new : List (String × String)) : List (String × String) :=
  new.foldl (fun acc kv => aset acc kv.1 kv.2) old

theorem alookup_aset_self {α : Type} (l : List (String × α)) (k : String) (v : α) :
    alookup (aset l k v) k = some v := by
  induction l with
  | nil => simp [aset, alookup]
  | cons hd tl ih =>
      by_cases h : hd.1 = k
      · simp [aset, alookup, h]
      · simp [aset, alookup, h, ih]

/-- Task lifecycle states from `a2a.types.TaskState` as used by the repository. -/
inductive TaskState where
  | submitted
  | working
  | completed
  | failed
  | cancelled
deriving DecidableEq

/-- A state is terminal when it is `completed`, `failed` or `cancelled`. -/
def TaskState.isTerminal : TaskState → Bool
  | TaskState.completed => true
  | TaskState.failed => true
  | TaskState.cancelled => true
  | _ => false

/-- An `a2a.types.Task` record as stored by the base `InMemoryTaskStore`
(`id`, `contextId`, and the state carried by its `TaskStatus`). -/
structure TaskRec where
  id : String
  contextId : String
  status : TaskState
deriving DecidableEq

/-- One entry of `EnhancedTaskStore.task_metadata`. -/
structure TaskMeta where
  context_id : String
  created_at : Nat
  metadata : List (String × String)
deriving DecidableEq

/-- One entry appended to `EnhancedTaskStore.task_history` by `update_task_status`. -/
structure HistoryEntry where
  status : TaskState
  timestamp : Nat
  metadata : List (String × String)
deriving DecidableEq

/-- The parts of `EnhancedTaskStore` state that the lifecycle operations touch:
the base-class `tasks` dict plus `task_metadata` and `task_history`. -/
structure EnhancedTaskStore where
  tasks : List (String × TaskRec)
  task_metadata : List (String × TaskMeta)
  task_history : List (String × List HistoryEntry)
deriving DecidableEq

/-- Python truthiness of the optional `metadata` argument (`if metadata and ...`):
`None` and the empty dict are falsy. -/
def mdTruthy : Option (List (String × String)) → Bool
  | some (_ :: _) => true
  | _ => false

/-- Embedding of `EnhancedTaskStore.update_task_status` (task.py lines 37-70):
fetch the existing task or build a new one with the context id found in
`task_metadata` (default "unknown"), store it with the new state, append a
history entry, and merge `metadata` into the stored metadata when truthy.
There is no check of the previous state. -/
def update_task_status (s : EnhancedTaskStore) (task_id : String) (status : TaskState)
    (metadata : Option (List (String × String))) (now : Nat) : EnhancedTaskStore :=
  let existing := alookup s.tasks task_id
  let context_id :=
    match alookup s.task_metadata task_id with
    | some m => m.context_id
    | none => ("unknown")
  let task : TaskRec :=
    match existing with
    | some t => { t with status := status }
    | none => { id := task_id, contextId := context_id, status := status }
  let tasks' := aset s.tasks task_id task
  let hist :=
    match alookup s.task_history task_id with
    | some h => h
    | none => []
  let hist' := aset s.task_history task_id
    (hist ++ [{ status := status, timestamp := now, metadata := metadata.getD [] }])
  let meta' :=
    if mdTruthy metadata && (alookup s.task_metadata task_id).isSome then
      match alookup s.task_metadata task_id with
      | some m =>
          aset s.task_metadata task_id
            { m with metadata := dictUpdate m.metadata (metadata.getD []) }
      | none => s.task_metadata
    else s.task_metadata
  { tasks := tasks', task_metadata := meta', task_history := hist' }

/-- Embedding of `EnhancedTaskStore.create_task` (task.py lines 27-35):
unconditionally overwrite `task_metadata[task_id]`, reset
`task_history[task_id]` to the empty list, then call `update_task_status`
with state `submitted`. -/
def create_task (s : EnhancedTaskStore) (task_id context_id : String)
    (metadata : Option (List (String × String))) (now : Nat) : EnhancedTaskStore :=
  let s1 : EnhancedTaskStore :=
    { s with
      task_metadata :=
        aset s.task_metadata task_id
          { context_id := context_id, created_at := now, metadata := metadata.getD [] },
      task_history := aset s.task_history task_id [] }
  update_task_status s1 task_id TaskState.submitted metadata now

/-- Stored state of a task id, when present. -/
def stateOf (s : EnhancedTaskStore) (task_id : String) : Option TaskState :=
  (alookup s.tasks task_id).map TaskRec.status

/-- Recorded status-change history of a task id (empty when absent). -/
def histOf (s : EnhancedTaskStore) (task_id : String) : List HistoryEntry :=
  (alookup s.task_history task_id).getD []

/-- A concrete store holding the single task `t1`, already in the terminal
state `completed`. -/
def c1store : EnhancedTaskStore :=
  { tasks := [(("t1"), { id := ("t1"), contextId := ("s1"), status := TaskState.completed })],
    task_metadata := [(("t1"), { context_id := ("s1"), created_at := 0, metadata := [] })],
    task_history :=
      [(("t1"),
        [{ status := TaskState.submitted, timestamp := 0, metadata := [] },
         { status := TaskState.completed, timestamp := 1, metadata := [] }])] }

/-- The task referenced by `c1store`. -/
def c1task : TaskRec :=
  { id := ("t1"), contextId := ("s1"), status := TaskState.completed }

/-- C1 counterexample: task `t1` is stored in the terminal state `completed`,
yet a subsequent `update_task_status` to `working` changes the stored state to
`working` — the call is not a no-op as the claim asserts. -/
theorem C1_counterexample :
    TaskState.isTerminal TaskState.completed = true
    ∧ stateOf c1store ("t1") = some TaskState.completed
    ∧ stateOf (update_task_status c1store ("t1") TaskState.working none 5) ("t1")
        = some TaskState.working
    ∧ stateOf (update_task_status c1store ("t1") TaskState.working none 5) ("t1")
        ≠ stateOf c1store ("t1") := by
  decide

/-- C1 (amended): `update_task_status` never treats terminal states specially.
For every stored task, even one in a terminal state, a subsequent call
overwrites the stored state with the requested state and appends one entry to
the status-change history; the call is still accepted without error. -/
theorem C1_update_status_overwrites_terminal (s : EnhancedTaskStore) (tid : String)
    (t : TaskRec) (st : TaskState) (md : Option (List (String × String))) (now : Nat)
    (hex : alookup s.tasks tid = some t) (hterm : TaskState.isTerminal t.status = true) :
    stateOf (update_task_status s tid st md now) tid = some st
    ∧ (histOf (update_task_status s tid st md now) tid).length
        = (histOf s tid).length + 1 := by
  constructor
  · simp [update_task_status, stateOf, hex, alookup_aset_self]
  · simp only [update_task_status, histOf, hex]
    rw [alookup_aset_self]
    cases h : alookup s.task_history tid <;> simp [h]

/-- C1 witness: the amended theorem applied to the concrete store `c1store`
whose task `t1` is terminal (`completed`). -/
theorem C1_witness :
    alookup c1store.tasks ("t1") = some c1task
    ∧ TaskState.isTerminal c1task.status = true
    ∧ (stateOf (update_task_status c1store ("t1") TaskState.working none 5) ("t1")
          = some TaskState.working
        ∧ (histOf (update_task_status c1store ("t1") TaskState.working none 5) ("t1")).length
            = (histOf c1store ("t1")).length + 1) :=
  ⟨by decide, by decide,
    C1_update_status_overwrites_terminal c1store ("t1") c1task TaskState.working none 5
      (by decide) (by decide)⟩

/-- A store in which `t1` was created and then moved to `working`:
its history has two entries and its state is `working`. -/
def c3store : EnhancedTaskStore :=
  update_task_status (create_task { tasks := [], task_metadata := [], task_history := [] }
    ("t1") ("s1") none 0) ("t1") TaskState.working none 1

/-- C3 counterexample: after the task `t1` exists (state `working`, two history
entries), a second `create_task` with the same id does not return the record
unchanged: the stored state is reset to `submitted` and the status-change
history is reset to a single entry. -/
theorem C3_counterexample :
    stateOf c3store ("t1") = some TaskState.working
    ∧ (histOf c3store ("t1")).length = 2
    ∧ stateOf (create_task c3store ("t1") ("s1") none 2) ("t1") = some TaskState.submitted
    ∧ (histOf (create_task c3store ("t1") ("s1") none 2) ("t1")).length = 1
    ∧ create_task c3store ("t1") ("s1") none 2 ≠ c3store := by
  decide

/-- C3 (amended): `create_task` is not idempotent — calling it for any store
and task id (in particular an id that already has a record) reinitializes the
record: the creation metadata is overwritten, the status-change history is
reset to exactly one `submitted` entry, and the stored state becomes
`submitted`. -/
theorem C3_create_task_reinitializes (s : EnhancedTaskStore) (tid cid : String)
    (md : Option (List (String × String))) (now : Nat) :
    stateOf (create_task s tid cid md now) tid = some TaskState.submitted
    ∧ histOf (create_task s tid cid md now) tid
        = [{ status := TaskState.submitted, timestamp := now, metadata := md.getD [] }]
    ∧ (alookup (create_task s tid cid md now).task_metadata tid).map TaskMeta.created_at
        = some now := by
  refine ⟨?_, ?_, ?_⟩
  · cases h : alookup s.tasks tid <;>
      simp [create_task, update_task_status, stateOf, h, alookup_aset_self]
  · cases h : alookup s.tasks tid <;>
      simp [create_task, update_task_status, histOf, h, alookup_aset_self]
  · cases h : alookup s.tasks tid <;>
      cases hm : mdTruthy md <;>
        simp [create_task, update_task_status, h, hm, alookup_aset_self, dictUpdate]

/-- C10: calling `update_task_status` for a task id that was never created
does not report a not-found error: it silently stores a fresh task record with
that id, context id "unknown" and the requested state, and starts a
status-change history containing exactly the one new entry. -/
theorem C10_update_unknown_task_creates (s : EnhancedTaskStore) (tid : String)
    (st : TaskState) (md : Option (List (String × String))) (now : Nat)
    (h1 : alookup s.tasks tid = none) (h2 : alookup s.task_metadata tid = none)
    (h3 : alookup s.task_history tid = none) :
    alookup (update_task_status s tid st md now).tasks tid
      = some { id := tid, contextId := ("unknown"), status := st }
    ∧ histOf (update_task_status s tid st md now) tid
        = [{ status := st, timestamp := now, metadata := md.getD [] }] := by
  constructor
  · simp [update_task_status, h1, h2, alookup_aset_self]
  · simp [update_task_status, histOf, h1, h2, h3, alookup_aset_self]

/-- C10 witness: the theorem applied to the empty store and the never-created
task id `tX`. -/
theorem C10_witness :
    alookup (EnhancedTaskStore.mk [] [] []).tasks ("tX") = none
    ∧ alookup (EnhancedTaskStore.mk [] [] []).task_metadata ("tX") = none
    ∧ alookup (EnhancedTaskStore.mk [] [] []).task_history ("tX") = none
    ∧ (alookup (update_task_status (EnhancedTaskStore.mk [] [] []) ("tX")
          TaskState.working none 0).tasks ("tX")
        = some { id := ("tX"), contextId := ("unknown"), status := TaskState.working }
      ∧ histOf (update_task_status (EnhancedTaskStore.mk [] [] []) ("tX")
            TaskState.working none 0) ("tX")
          = [{ status := TaskState.working, timestamp := 0, metadata := [] }]) :=
  ⟨by decide, by decide, by decide,
    C10_update_unknown_task_creates (EnhancedTaskStore.mk [] [] []) ("tX")
      TaskState.working none 0 (by decide) (by decide) (by decide)⟩

/-- Events observed by the caller of the adapter, abstracting the A2A event
payloads: `statusUpdate` carries the task state, the `final` flag and the
optional `progress` metadata value; `message` carries the text of an agent
message; `a2aError` carries an error code and message. -/
inductive Event where
  | statusUpdate (state : TaskState) (final : Bool) (progress : Option Rat)
  | message (text : String)
  | a2aError (code : Int) (text : String)
deriving DecidableEq

/-- Python `s.split()` with no arguments: split on runs of whitespace,
dropping empty pieces. Implemented structurally on the character list, with
the characters of the current word accumulated in reverse. -/
def pySplitWs : List Char → List Char → List String
  | [], acc => if acc.isEmpty then [] else [String.mk acc.reverse]
  | c :: cs, acc =>
      if c.isWhitespace then
        if acc.isEmpty then pySplitWs cs []
        else String.mk acc.reverse :: pySplitWs cs []
      else pySplitWs cs (c :: acc)

/-- Python `len(s.split())` word count. -/
def pyWordCount (s : String) : Nat :=
  (pySplitWs s.data []).length

/-- Python `s.lower()` (ASCII case folding, as `Char.toLower`). -/
def pyLower (s : String) : String :=
  String.mk (s.data.map Char.toLower)

/-- Python `s.strip()`: remove leading and trailing whitespace. -/
def pyStrip (s : String) : String :=
  String.mk (((s.data.dropWhile Char.isWhitespace).reverse.dropWhile
    Char.isWhitespace).reverse)

/-- Prefix test on character lists, used to embed Python substring containment. -/
def isPrefixOfChars : List Char → List Char → Bool
  | [], _ => true
  | _ :: _, [] => false
  | a :: as, b :: bs => a = b && isPrefixOfChars as bs

/-- Occurrence of `needle` somewhere in the character list. -/
def containsChars (needle : List Char) : List Char → Bool
  | [] => needle.isEmpty
  | b :: bs => isPrefixOfChars needle (b :: bs) || containsChars needle bs

/-- Python `needle in hay` on strings. -/
def pyContains (hay needle : String) : Bool :=
  containsChars needle.data hay.data

/-- Result of `UnifiedIsekAdapter._analyze_multiturn_requirement`; when
`needs_more_info` is false the source returns a dict without the other keys,
modelled here by empty defaults. -/
structure MultiturnResult where
  needs_more_info : Bool
  clarification_question : String
  required_info : List String
deriving DecidableEq

/-- Embedding of `_analyze_multiturn_requirement` (isek_adapter.py lines
220-251): fewer than 5 words asks for `specific_goal`, `context`,
`preferences`; otherwise an input containing "help" with fewer than 10 words
asks for `topic`, `specific_question`; otherwise no clarification. -/
def analyze_multiturn (user_input : String) : MultiturnResult :=
  let word_count := pyWordCount user_input
  if word_count < 5 then
    { needs_more_info := true,
      clarification_question :=
        ("I\x27d like to help you better. Could you provide more details about what you need?"),
      required_info := [("specific_goal"), ("context"), ("preferences")] }
  else if pyContains (pyLower user_input) ("help") && word_count < 10 then
    { needs_more_info := true,
      clarification_question :=
        ("I\x27m here to help! What specific area do you need assistance with?"),
      required_info := [("topic"), ("specific_question")] }
  else
    { needs_more_info := false, clarification_question := (""), required_info := [] }

/-- Conversation state stored in `UnifiedIsekAdapter.conversation_states`. -/
structure ConvState where
  stage : String
  original_request : String
  required_info : List String
  collected_info : List (String × String)
  current_question : String
deriving DecidableEq

/-- Conversation state as created by `_handle_multiturn_flow` and
`_handle_new_conversation`: stage `collecting_info`, empty collected map,
and `current_question` set to `required_info[0]` (the Python indexing
presupposes a non-empty list; `headD` totalizes it). -/
def mkConvState (original : String) (req : List String) : ConvState :=
  { stage := ("collecting_info"), original_request := original, required_info := req,
    collected_info := [], current_question := req.headD ("") }

/-- Python `"\n".join(parts)`. -/
def joinLines : List String → String
  | [] => ("")
  | [x] => x
  | x :: y :: rest => x ++ ("\n") ++ joinLines (y :: rest)

/-- Embedding of `_generate_info_summary`: one "- key: value" line per
collected entry, in insertion order. -/
def generate_info_summary (cs : ConvState) : String :=
  joinLines (cs.collected_info.map (fun kv => ("- ") ++ kv.1 ++ (": ") ++ kv.2))

/-- Embedding of `_handle_info_collection_continuation` (isek_adapter.py lines
289-354): record the reply under `current_question`, compute the required
fields still missing, and either ask for the first missing one (staying in
`collecting_info`) or move to `confirmation` and emit the summary. Returns the
emitted events and the updated conversation state. -/
def info_collection_step (cs : ConvState) (user_input : String) :
    List Event × ConvState :=
  let collected :=
    if cs.current_question = ("") then cs.collected_info
    else aset cs.collected_info cs.current_question user_input
  let remaining := cs.required_info.filter (fun i => (alookup collected i).isNone)
  match remaining with
  | next :: _ =>
      ([Event.message (("Thank you! Now, could you please provide information about: ")
          ++ next ++ ("?")),
        Event.statusUpdate TaskState.working false none],
       { cs with collected_info := collected, current_question := next })
  | [] =>
      let cs' := { cs with collected_info := collected, stage := ("confirmation") }
      ([Event.message (("Perfect! I\x27ve collected all the information:\n")
          ++ generate_info_summary cs'
          ++ ("\n\nShall I proceed with processing your request? (yes/no)")),
        Event.statusUpdate TaskState.working false none],
       cs')

/-- The affirmative vocabulary of `_handle_confirmation_continuation`
(isek_adapter.py line 376). -/
def affirmative_responses : List String :=
  [("yes"), ("y"), ("proceed"), ("ok"), ("确认")]

/-- The negative vocabulary of `_handle_confirmation_continuation`
(isek_adapter.py line 394). -/
def negative_responses : List String :=
  [("no"), ("n"), ("cancel"), ("stop"), ("取消")]

/-- Outcome of the confirmation stage: proceed with execution on the built
full context, abort the request, or re-prompt. -/
inductive ConfirmOutcome where
  | proceed (full_context : String)
  | abortRequest
  | reprompt
deriving DecidableEq

/-- Embedding of `_build_full_context`: the original request line, an
"Additional information:" header, and one line per collected entry. -/
def build_full_context (cs : ConvState) : String :=
  joinLines ([("Original request: ") ++ cs.original_request,
    ("Additional information:")]
    ++ cs.collected_info.map (fun kv => ("- ") ++ kv.1 ++ (": ") ++ kv.2))

/-- Embedding of `_handle_confirmation_continuation` (isek_adapter.py lines
356-421): normalize the reply with `.lower().strip()`, then classify it
against the affirmative and negative vocabularies. The second component is
the session's conversation state after the call (`none` models
`conversation_states.pop`). -/
def confirmation_step (cs : ConvState) (user_input : String) :
    ConfirmOutcome × Option ConvState :=
  let user_response := pyStrip (pyLower user_input)
  if affirmative_responses.contains user_response then
    (ConfirmOutcome.proceed (build_full_context cs), none)
  else if negative_responses.contains user_response then
    (ConfirmOutcome.abortRequest, none)
  else
    (ConfirmOutcome.reprompt, some cs)

/-- Events directly emitted by each branch of
`_handle_confirmation_continuation` before any nested execution. -/
def confirmation_events : ConfirmOutcome → List Event
  | ConfirmOutcome.proceed _ =>
      [Event.statusUpdate TaskState.working false none,
       Event.message ("Great! Processing your request now...")]
  | ConfirmOutcome.abortRequest =>
      [Event.message
        ("Understood. The request has been cancelled. Feel free to start over if needed."),
       Event.statusUpdate TaskState.cancelled true none]
  | ConfirmOutcome.reprompt =>
      [Event.message
        ("I didn\x27t understand that. Please respond with \x27yes\x27 to proceed or \x27no\x27 to cancel."),
       Event.statusUpdate TaskState.working false none]

/-- The fixed checkpoint list of `_execute_long_task` (isek_adapter.py lines
573-578): step name, target progress value and status message. Progress
literals are embedded as rationals. -/
def long_task_steps : List (String × Rat × String) :=
  [(("Understanding your request"), 0.2, ("Processing your input...")),
   (("Analyzing requirements"), 0.4, ("Breaking down the task...")),
   (("Generating response"), 0.7, ("Creating optimized content...")),
   (("Final review"), 0.9, ("Reviewing and polishing..."))]

/-- Cooperative cancellation: `cancel_async` runs on the same event loop as
`execute_async`, so the cancellation flag can only be set while the execute
stream is suspended (at a yield to the caller or at an `await`). `cancelAt =
some n` means the flag is set during suspension number `n` (suspension 0 is
the window after the initial `working` event is delivered, covering the
awaits before the long-path loop first runs); an `_is_task_cancelled` check
executed after `s` suspensions have completed observes the flag exactly when
`n < s`. `none` means the task is never cancelled. -/
def flagSeen (cancelAt : Option Nat) (s : Nat) : Bool :=
  match cancelAt with
  | none => false
  | some n => decide (n < s)

/-- The long-path loop of `execute_async` around `_execute_long_task`,
threading the count `s` of completed suspensions. Per iteration: the
generator check at the top of the loop (isek_adapter.py line 582) raises
`TaskCancelledException` when it sees the flag; the checkpoint status event
is then yielded and forwarded — the wrapper check (line 125) on it runs
back-to-back with the generator check, with no suspension in between, so it
can never be the first to see the flag. Delivery of the checkpoint to the
caller is a suspension; a flag set there is first seen by the wrapper check
on the step message, which breaks and swallows that message. Delivery of the
message (and the following `asyncio.sleep`) is the next suspension, whose
flag is first seen by the next generator check. After the loop the generator
checks once more (line 605) before the blocking Responder call and skips it
silently when cancelled; otherwise the final message is forwarded (again no
suspension before its wrapper check) and delivered. Returns the events
forwarded to the caller, whether `TaskCancelledException` was raised, and
the updated suspension count. -/
def longLoop (cancelAt : Option Nat) (result : String) :
    List (String × Rat × String) → Nat → List Event × Bool × Nat
  | [], s =>
      if flagSeen cancelAt s then ([], false, s)
      else ([Event.message (("✅ Task completed:\n\n") ++ result)], false, s + 1)
  | (_, prog, msg) :: rest, s =>
      if flagSeen cancelAt s then ([], true, s)
      else
        let e1 := Event.statusUpdate TaskState.working false (some prog)
        if flagSeen cancelAt (s + 1) then ([e1], false, s + 1)
        else
          let e2 := Event.message (("🔄 ") ++ msg)
          let r := longLoop cancelAt result rest (s + 2)
          (e1 :: e2 :: r.1, r.2.1, r.2.2)

/-- The event stream `execute_async` yields for a long-path run (isek_adapter.py
lines 52-165 around `_execute_long_task`), as a function of the cancellation
suspension point: the initial `working` status event, the forwarded loop
events (the loop starts with one completed suspension), then either the
terminal `cancelled` event from the `TaskCancelledException` handler, or
nothing further when the step-8 completion check sees the flag, or the
terminal `completed` event. -/
def executeAsyncLongEvents (cancelAt : Option Nat) (result : String) : List Event :=
  let started := Event.statusUpdate TaskState.working false none
  let r := longLoop cancelAt result long_task_steps 1
  if r.2.1 then (started :: r.1) ++ [Event.statusUpdate TaskState.cancelled true none]
  else if flagSeen cancelAt r.2.2 then started :: r.1
  else (started :: r.1) ++ [Event.statusUpdate TaskState.completed true none]

/-- Embedding of `cancel_async` (isek_adapter.py lines 167-196): when the task
is still tracked in `running_tasks` it acknowledges with a terminal `cancelled`
status event, otherwise it emits an A2A error. -/
def cancelAsyncEvents (running : Bool) (task_id : String) : List Event :=
  if running then
    [Event.statusUpdate TaskState.cancelled true none]
  else
    [Event.a2aError (-32602) (("Task ") ++ task_id ++ (" not found or already completed"))]

/-- The progress metadata values carried by the status events of a stream, in
emission order. -/
def progressValues (es : List Event) : List Rat :=
  es.filterMap (fun e =>
    match e with
    | Event.statusUpdate _ _ p => p
    | _ => none)

/-- Number of terminal `cancelled` status events in a stream. This count is
invariant under interleaving of the execute stream with the cancel
acknowledgement stream. -/
def countTerminalCancelled (es : List Event) : Nat :=
  (es.filter (fun e => e = Event.statusUpdate TaskState.cancelled true none)).length

/-- C2 counterexample: for a long-path task whose cancellation flag is set
right after the start event — before the first checkpoint check, so before any
progress event is emitted — the execute stream itself ends with its own
terminal `cancelled` event, so the combined stream (execute stream plus cancel
acknowledgement) contains two terminal `cancelled` events, not exactly one. -/
theorem C2_counterexample :
    countTerminalCancelled
        (executeAsyncLongEvents (some 0) ("r") ++ cancelAsyncEvents true ("t1")) = 2
    ∧ countTerminalCancelled
        (executeAsyncLongEvents (some 0) ("r") ++ cancelAsyncEvents true ("t1")) ≠ 1 := by
  decide

/-- C2 (amended): when a long-path task is cancelled before any progress
checkpoint event reaches the caller (the flag is set during suspension 0,
the only suspension window preceding the first checkpoint delivery), the
flag is first seen by the generator check at the top of the loop: the
execute stream contains no progress or message events and ends with the
terminal `cancelled` event from the `TaskCancelledException` handler, so the
combined stream (execute stream plus the cancel acknowledgement) contains
exactly two terminal `cancelled` events, not one. -/
theorem C2_cancel_before_first_checkpoint (result task_id : String) :
    executeAsyncLongEvents (some 0) result
      = [Event.statusUpdate TaskState.working false none,
         Event.statusUpdate TaskState.cancelled true none]
    ∧ countTerminalCancelled
        (executeAsyncLongEvents (some 0) result ++ cancelAsyncEvents true task_id) = 2 :=
  ⟨rfl, rfl⟩

/-- C4 counterexample: on a non-cancelled long-path run the last progress
value emitted before the terminal `completed` event is 0.9, and 0.9 is not
1.0 — the claim's final value of 1.0 is never emitted. -/
theorem C4_counterexample :
    (progressValues (executeAsyncLongEvents none ("r"))).getLast? = some 0.9
    ∧ (0.9 : Rat) ≠ 1 := by
  constructor
  · rfl
  · norm_num

/-- C4 (amended): for every non-cancelled long-path run, the progress values
carried by the emitted status events are non-decreasing, the stream ends with
the terminal `completed` event, and the last progress value emitted before it
is 0.9 (not 1.0). -/
theorem C4_long_path_progress_monotone (result : String) :
    List.Chain' (fun a b => a ≤ b) (progressValues (executeAsyncLongEvents none result))
    ∧ (progressValues (executeAsyncLongEvents none result)).getLast? = some 0.9
    ∧ (executeAsyncLongEvents none result).getLast?
        = some (Event.statusUpdate TaskState.completed true none) := by
  have h : progressValues (executeAsyncLongEvents none result)
      = [0.2, 0.4, 0.7, 0.9] := rfl
  refine ⟨?_, ?_, rfl⟩
  · rw [h]
    simp only [List.chain'_cons, List.chain'_singleton, and_true]
    norm_num
  · rw [h]; rfl

/-- C5 counterexample: on the input "help" the clarification analysis does not
return required_info = [topic, specific_question] with first question `topic`:
the word-count branch fires first. -/
theorem C5_counterexample :
    ¬ ((analyze_multiturn ("help")).required_info = [("topic"), ("specific_question")]
        ∧ (mkConvState ("help") (analyze_multiturn ("help")).required_info).current_question
            = ("topic")) := by
  decide

/-- C5 (amended): on the input "help" (a single word, so below the 5-word
threshold, which is tested before the help-trigger branch) the analysis
returns needs_clarification = true with required_info = [specific_goal,
context, preferences], and the first question asked — the `current_question`
of the freshly created conversation state — is `specific_goal`. -/
theorem C5_help_word_count_branch :
    (analyze_multiturn ("help")).needs_more_info = true
    ∧ (analyze_multiturn ("help")).required_info
        = [("specific_goal"), ("context"), ("preferences")]
    ∧ (mkConvState ("help") (analyze_multiturn ("help")).required_info).current_question
        = ("specific_goal") := by
  decide

/-- A concrete conversation state in the confirmation stage, with two
collected fields. -/
def confirmConvState : ConvState :=
  { stage := ("confirmation"), original_request := ("please help me with testing"),
    required_info := [("topic"), ("specific_question")],
    collected_info := [(("topic"), ("testing")), (("specific_question"), ("how to run"))],
    current_question := ("specific_question") }

/-- C6 counterexample: the reply "confirm" is not in the code's affirmative
vocabulary, so instead of proceeding to execution with the conversation state
cleared, the coordinator re-prompts and keeps the state unchanged. -/
theorem C6_counterexample :
    confirmation_step confirmConvState ("confirm")
      = (ConfirmOutcome.reprompt, some confirmConvState) := by
  decide

/-- C6 (amended): the affirmative vocabulary is {yes, y, proceed, ok, 确认}
(not {yes, y, proceed, ok, confirm}); for every reply whose trimmed,
lower-cased form is in it, the coordinator clears the session's conversation
state (returning it to idle) and proceeds with execution on the full context
built from original_request and collected_info. -/
theorem C6_affirmative_vocabulary_proceeds (cs : ConvState) (user_input : String)
    (h : affirmative_responses.contains (pyStrip (pyLower user_input)) = true) :
    confirmation_step cs user_input
      = (ConfirmOutcome.proceed (build_full_context cs), none) := by
  have h' : pyStrip (pyLower user_input) ∈ affirmative_responses := by
    simpa using h
  simp [confirmation_step, h']

/-- C6 witness: the amended theorem applied to the reply " YES " (any case and
surrounding whitespace) in the concrete confirmation state. -/
theorem C6_witness :
    affirmative_responses.contains (pyStrip (pyLower (" YES "))) = true
    ∧ confirmation_step confirmConvState (" YES ")
        = (ConfirmOutcome.proceed (build_full_context confirmConvState), none) :=
  ⟨by decide,
    C6_affirmative_vocabulary_proceeds confirmConvState (" YES ") (by decide)⟩

/-- C7: from a freshly created collecting_info state with required_info =
[topic, specific_question], the first reply is recorded under `topic` and the
question advances to `specific_question`; the second reply is recorded under
`specific_question`, the stage moves to `confirmation`, and the emitted
summary lists `topic` then `specific_question`, each with its exact collected
value. -/
theorem C7_two_field_collection_order (orig r1 r2 : String) :
    ((info_collection_step (mkConvState orig [("topic"), ("specific_question")]) r1).2.collected_info
        = [(("topic"), r1)])
    ∧ (info_collection_step (mkConvState orig [("topic"), ("specific_question")]) r1).2.current_question
        = ("specific_question")
    ∧ (info_collection_step (mkConvState orig [("topic"), ("specific_question")]) r1).2.stage
        = ("collecting_info")
    ∧ ((info_collection_step
          ((info_collection_step (mkConvState orig [("topic"), ("specific_question")]) r1).2)
          r2).2.collected_info
        = [(("topic"), r1), (("specific_question"), r2)])
    ∧ ((info_collection_step
          ((info_collection_step (mkConvState orig [("topic"), ("specific_question")]) r1).2)
          r2).2.stage
        = ("confirmation"))
    ∧ (generate_info_summary
          ((info_collection_step
            ((info_collection_step (mkConvState orig [("topic"), ("specific_question")]) r1).2)
            r2).2)
        = ((("- topic: ") ++ r1 ++ ("\n")) ++ (("- specific_question: ") ++ r2))) :=
  ⟨rfl, rfl, rfl, rfl, rfl, rfl⟩

/-- C9: in the confirmation stage, a reply matching neither the affirmative
nor the negative vocabulary leaves the conversation state untouched — the
stage stays `confirmation` and collected_info, required_info,
original_request and current_question are all identical — and the coordinator
re-emits the re-prompt message followed by a non-final working status event. -/
theorem C9_unrecognized_reply_frame (cs : ConvState) (user_input : String)
    (hstage : cs.stage = ("confirmation"))
    (h1 : affirmative_responses.contains (pyStrip (pyLower user_input)) = false)
    (h2 : negative_responses.contains (pyStrip (pyLower user_input)) = false) :
    confirmation_step cs user_input = (ConfirmOutcome.reprompt, some cs)
    ∧ ((confirmation_step cs user_input).2.map ConvState.stage = some ("confirmation"))
    ∧ confirmation_events ConfirmOutcome.reprompt
        = [Event.message
            ("I didn\x27t understand that. Please respond with \x27yes\x27 to proceed or \x27no\x27 to cancel."),
           Event.statusUpdate TaskState.working false none] := by
  have h1' : pyStrip (pyLower user_input) ∉ affirmative_responses := by
    simpa using h1
  have h2' : pyStrip (pyLower user_input) ∉ negative_responses := by
    simpa using h2
  refine ⟨?_, ?_, rfl⟩
  · simp [confirmation_step, h1', h2']
  · simp [confirmation_step, h1', h2', hstage]

/-- C9 witness: the theorem applied to the reply "maybe" in the concrete
confirmation state. -/
theorem C9_witness :
    confirmConvState.stage = ("confirmation")
    ∧ affirmative_responses.contains (pyStrip (pyLower ("maybe"))) = false
    ∧ negative_responses.contains (pyStrip (pyLower ("maybe"))) = false
    ∧ (confirmation_step confirmConvState ("maybe")
          = (ConfirmOutcome.reprompt, some confirmConvState)
        ∧ ((confirmation_step confirmConvState ("maybe")).2.map ConvState.stage
            = some ("confirmation"))
        ∧ confirmation_events ConfirmOutcome.reprompt
            = [Event.message
                ("I didn\x27t understand that. Please respond with \x27yes\x27 to proceed or \x27no\x27 to cancel."),
               Event.statusUpdate TaskState.working false none]) :=
  ⟨by decide, by decide, by decide,
    C9_unrecognized_reply_frame confirmConvState ("maybe") (by decide) (by decide) (by decide)⟩
